import Mathlib

/-!
Shallow embedding of the per-connection admission and service-dispatch layer
of the ntex server runtime (`src/ntex/src/server/service.rs`).

The stateful Rust code is embedded as pure Lean functions that return, next
to the Rust return value, an explicit trace of the observable effects the
code performs (logging a conversion error, attaching a tag, attaching a
memory-pool reference, dispatching to the wrapped handler, dropping the
connection-counter guard).  External collaborators (stream conversion, the
wrapped handler, the two readiness signals) are supplied as environment
parameters, so theorems quantify over every behaviour those collaborators
can exhibit.
-/

/-- Opaque, copyable identifier for one listener (`Token`). -/
structure Token where
  id : Nat
deriving DecidableEq, Repr

/-- Static diagnostic label (`&'static str` tag). -/
abbrev Tag := String

/-- Graceful-shutdown deadline in milliseconds (`Millis`). -/
abbrev Millis := Nat

/-- Listen address (`SocketAddr`), opaque at this layer. -/
abbrev SocketAddr := Nat × Nat

/-- Identity of a memory pool (`PoolId`). -/
structure PoolId where
  id : Nat
deriving DecidableEq, Repr

/-- Readiness-query handle on a memory pool (`Pool`), obtained from a `PoolId`. -/
structure Pool where
  id : PoolId
deriving DecidableEq, Repr

/-- Attach-capable reference to a memory pool (`PoolRef`), obtained from a `PoolId`. -/
structure PoolRef where
  id : PoolId
deriving DecidableEq, Repr

/-- `PoolId::pool()`: the readiness handle derived from a pool identity. -/
def PoolId.pool (p : PoolId) : Pool := ⟨p⟩

/-- `PoolId::pool_ref()`: the attach reference derived from a pool identity. -/
def PoolId.pool_ref (p : PoolId) : PoolRef := ⟨p⟩

/-- Server configuration; at this layer only its pool identity is consumed. -/
structure Config where
  pool_id : PoolId
deriving DecidableEq, Repr

/-- `Config::default()`: the fresh default configuration built inside `Factory::create`. -/
def Config.default : Config := ⟨⟨0⟩⟩

/-- `Config::get_pool_id()`. -/
def Config.get_pool_id (c : Config) : PoolId := c.pool_id

/-- Opaque connection-accounting guard (`CounterGuard`); dropping it decrements
the external connection counter. The `id` distinguishes guard instances. -/
structure CounterGuard where
  id : Nat
deriving DecidableEq, Repr

/-- `ServerMessage`: the three-variant control protocol, parametric in the raw
stream type `S` (`socket::Stream`). -/
inductive ServerMessage (S : Type) where
  | Connect (stream : S)
  | Shutdown (deadline : Millis)
  | ForceShutdown
deriving DecidableEq, Repr

/-- `std::task::Poll`. -/
inductive Poll (α : Type) where
  | ready (a : α)
  | pending
deriving DecidableEq, Repr

/-- `Poll::is_ready()`. -/
def Poll.isReady {α : Type} : Poll α → Bool
  | Poll.ready _ => true
  | Poll.pending => false

/-- `StreamService<T>`: wraps one concrete connection handler together with
its tag and the two pool entities derived at construction. -/
structure StreamService (T : Type) where
  service : T
  tag : Tag
  pool : Pool
  pool_ref : PoolRef
deriving DecidableEq, Repr

/-- `StreamService::new(service, tag, pid)`: derives both the readiness
handle and the attach reference from the single pool identity `pid`. -/
def StreamService.new {T : Type} (service : T) (tag : Tag) (pid : PoolId) :
    StreamService T :=
  ⟨service, tag, pid.pool, pid.pool_ref⟩

instance {E A : Type} [DecidableEq E] [DecidableEq A] : DecidableEq (Except E A)
  | Except.error a, Except.error b =>
      if h : a = b then Decidable.isTrue (by rw [h])
      else Decidable.isFalse (by intro hc; cases hc; exact h rfl)
  | Except.error _, Except.ok _ => Decidable.isFalse (by intro h; cases h)
  | Except.ok _, Except.error _ => Decidable.isFalse (by intro h; cases h)
  | Except.ok a, Except.ok b =>
      if h : a = b then Decidable.isTrue (by rw [h])
      else Decidable.isFalse (by intro hc; cases hc; exact h rfl)

/-- Outcomes of the two readiness signals at one query: the wrapped handler's
`poll_ready` (fallible, error type `E`) and the pool's `poll_ready`
(infallible). -/
structure ReadyEnv (E : Type) where
  servicePoll : Poll (Except E Unit)
  poolPoll : Poll Unit
deriving DecidableEq, Repr

/-- Which signal was polled during a readiness query (probe trace). -/
inductive ReadyProbe where
  | pollService
  | pollPool
deriving DecidableEq, Repr

/-- `StreamService::poll_ready`: mirrors
`let ready = self.service.poll_ready(cx).map_err(|_| ())?.is_ready();`
`let ready = self.pool.poll_ready(cx).is_ready() && ready;`
with the trace of which signals were actually polled.  The `?` operator
returns early on a handler error, before the pool is polled. -/
def StreamService.poll_ready {T E : Type} (_s : StreamService T) (env : ReadyEnv E) :
    Poll (Except Unit Unit) × List ReadyProbe :=
  match env.servicePoll with
  | Poll.ready (Except.error _) =>
      (Poll.ready (Except.error ()), [ReadyProbe.pollService])
  | Poll.ready (Except.ok _) =>
      let ready := true
      let ready := env.poolPoll.isReady && ready
      (if ready then Poll.ready (Except.ok ()) else Poll.pending,
       [ReadyProbe.pollService, ReadyProbe.pollPool])
  | Poll.pending =>
      let ready := false
      let ready := env.poolPoll.isReady && ready
      (if ready then Poll.ready (Except.ok ()) else Poll.pending,
       [ReadyProbe.pollService, ReadyProbe.pollPool])

/-- Observable effects of one `StreamService::call`, in order of occurrence.
`I` is the typed async stream (`Io`), `E` the conversion error, `D` the
wrapped handler's error type. -/
inductive Event (I E D : Type) where
  | logConvError (e : E)
  | setTag (tag : Tag)
  | setMemoryPool (p : PoolRef)
  | dispatch (stream : I) (result : Except D Unit)
  | dropGuard (g : CounterGuard)
deriving DecidableEq, Repr

/-- Whether an event is a handler dispatch. -/
def Event.isDispatch {I E D : Type} : Event I E D → Bool
  | Event.dispatch _ _ => true
  | _ => false

/-- Whether an event is a guard drop. -/
def Event.isDrop {I E D : Type} : Event I E D → Bool
  | Event.dropGuard _ => true
  | _ => false

/-- Whether an event is a tag attachment. -/
def Event.isSetTag {I E D : Type} : Event I E D → Bool
  | Event.setTag _ => true
  | _ => false

/-- Whether an event is a pool attachment. -/
def Event.isSetPool {I E D : Type} : Event I E D → Bool
  | Event.setMemoryPool _ => true
  | _ => false

/-- Whether an event is a logged conversion error. -/
def Event.isLog {I E D : Type} : Event I E D → Bool
  | Event.logConvError _ => true
  | _ => false

/-- The guard-drop events produced when an `Option<CounterGuard>` goes out of
scope (or is dropped explicitly): one drop if a guard is present, none
otherwise. -/
def dropEvents {I E D : Type} (guard : Option CounterGuard) : List (Event I E D) :=
  match guard with
  | some g => [Event.dropGuard g]
  | none => []

/-- External collaborators of `StreamService::call`: the fallible raw-stream
conversion (`Stream::try_into`) and the semantics of dispatching the wrapped
handler of type `T` on a converted stream (`ctx.call(self.service, stream)`,
returning the handler's own success or failure). -/
structure CallEnv (T S I E D : Type) where
  tryInto : S → Except E I
  run : T → I → Except D Unit

/-- `StreamService::call` on input `(guard, req)`.  On `Connect`, conversion
failure logs the error and resolves `Err(())`; conversion success attaches the
tag and the pool reference, dispatches to the wrapped handler, discards the
handler's outcome, drops the guard explicitly, and resolves `Ok(())`.  Any
other message resolves `Ok(())`.  On every path the guard, having been moved
into the future, is dropped by the time the future resolves. -/
def StreamService.call {T S I E D : Type} (s : StreamService T)
    (env : CallEnv T S I E D) (guard : Option CounterGuard) (req : ServerMessage S) :
    Except Unit Unit × List (Event I E D) :=
  match req with
  | ServerMessage.Connect stream =>
      match env.tryInto stream with
      | Except.ok stream =>
          let result := env.run s.service stream
          (Except.ok (),
           [Event.setTag s.tag, Event.setMemoryPool s.pool_ref,
            Event.dispatch stream result] ++ dropEvents guard)
      | Except.error e =>
          (Except.error (), [Event.logConvError e] ++ dropEvents guard)
  | _ => (Except.ok (), dropEvents guard)

/-- `boxed::service`: type erasure of a concrete service behind the uniform
boxed interface; semantically the identity on the service's behaviour. -/
def boxed_service {T : Type} (s : StreamService T) : StreamService T := s

/-- `Factory<F>`: binds a display name, a static tag, the user-supplied
builder `inner`, the listener token, and the listen address. -/
structure Factory (F : Type) where
  name : String
  tag : Tag
  inner : F
  token : Token
  addr : SocketAddr
deriving DecidableEq, Repr

/-- `InternalServiceFactory::set_tag` for `Factory<F>`: mutates the tag used
by all services this factory subsequently builds (the token is ignored by
this one-token implementation). -/
def Factory.set_tag {F : Type} (f : Factory F) (_tok : Token) (tag : Tag) :
    Factory F :=
  ⟨f.name, tag, f.inner, f.token, f.addr⟩

/-- `InternalServiceFactory::clone_factory` for `Factory<F>`: builds an
independent factory instance copying every field. -/
def Factory.clone_factory {F : Type} (f : Factory F) : Factory F :=
  ⟨f.name, f.tag, f.inner, f.token, f.addr⟩

/-- `InternalServiceFactory::create` for `Factory<F>`: builds a fresh default
configuration, derives the pool identity from it, invokes the user builder
(`screate`, the `StreamServiceFactory::create` semantics, infallible) and
awaits the resulting factory's own async build (`fcreate`, the
`ServiceFactory::create(()).await` semantics, fallible); on success wraps the
built handler in a `StreamService` and returns the singleton token/service
list, on failure returns `Err(())`. -/
def Factory.create {F UF T B : Type} (screate : F → Config → UF)
    (fcreate : UF → Except B T) (f : Factory F) :
    Except Unit (List (Token × StreamService T)) :=
  let token := f.token
  let tag := f.tag
  let cfg := Config.default
  let pool := cfg.get_pool_id
  let factory := screate f.inner cfg
  match fcreate factory with
  | Except.ok inner =>
      Except.ok [(token, boxed_service (StreamService.new inner tag pool))]
  | Except.error _ => Except.error ()

/-! Concrete instances used by witnesses and counterexamples. -/

/-- A concrete service wrapping the trivial handler, tagged, on pool 1. -/
def svc0 : StreamService Unit := StreamService.new () "srv" ⟨1⟩

/-- Readiness environment: handler ready-ok, pool ready. -/
def envReady : ReadyEnv Unit := ⟨Poll.ready (Except.ok ()), Poll.ready ()⟩

/-- Readiness environment: handler reports an error, pool ready. -/
def envErr : ReadyEnv Unit := ⟨Poll.ready (Except.error ()), Poll.ready ()⟩

/-- Readiness environment: handler ready-ok, pool not ready. -/
def envHalf : ReadyEnv Unit := ⟨Poll.ready (Except.ok ()), Poll.pending⟩

/-- Call environment whose stream conversion always succeeds. -/
def cenvOk : CallEnv Unit Nat Nat Unit Unit :=
  ⟨fun n => Except.ok n, fun _ _ => Except.ok ()⟩

/-- Call environment whose stream conversion always fails. -/
def cenvBad : CallEnv Unit Nat Nat Unit Unit :=
  ⟨fun _ => Except.error (), fun _ _ => Except.ok ()⟩

/-- A concrete factory instance. -/
def f0 : Factory Unit := ⟨"listener", "tag0", (), ⟨7⟩, (0, 80)⟩

/-- Trivial user builder (`StreamServiceFactory::create` semantics). -/
def screate0 : Unit → Config → Unit := fun _ _ => ()

/-- Trivial succeeding async build (`ServiceFactory::create` semantics). -/
def fcreate0 : Unit → Except Unit Unit := fun _ => Except.ok ()

/-- Always-failing async build. -/
def fcreateBad : Unit → Except Unit Unit := fun _ => Except.error ()

/-! Claims about `StreamService::poll_ready`. -/

/-- C2: for every readiness query where the wrapped handler's poll does not
return an error, the combined result is `Ready(Ok(()))` iff both the handler
and the pool independently report ready; if either reports not-ready the
combined result is `Pending`. -/
theorem poll_ready_ok_iff_both_ready {T E : Type} (s : StreamService T)
    (env : ReadyEnv E) (hne : ∀ e : E, env.servicePoll ≠ Poll.ready (Except.error e)) :
    ((s.poll_ready env).1 = Poll.ready (Except.ok ()) ↔
      env.servicePoll = Poll.ready (Except.ok ()) ∧ env.poolPoll = Poll.ready ()) ∧
    (¬(env.servicePoll = Poll.ready (Except.ok ()) ∧ env.poolPoll = Poll.ready ()) →
      (s.poll_ready env).1 = Poll.pending) := by
  rcases env with ⟨sp, pp⟩
  cases sp with
  | ready a =>
      cases a with
      | error e => exact absurd rfl (hne e)
      | ok u =>
          cases u
          cases pp with
          | ready v =>
              cases v
              simp [StreamService.poll_ready, Poll.isReady]
          | pending =>
              simp [StreamService.poll_ready, Poll.isReady]
  | pending =>
      cases pp with
      | ready v =>
          cases v
          simp [StreamService.poll_ready, Poll.isReady]
      | pending =>
          simp [StreamService.poll_ready, Poll.isReady]

/-- C2 witness: with handler ready-ok and pool ready, the combined result is
ready-ok, matching the equivalence at a concrete input. -/
theorem poll_ready_ok_iff_both_ready_witness :
    ((svc0.poll_ready envReady).1 = Poll.ready (Except.ok ()) ↔
      envReady.servicePoll = Poll.ready (Except.ok ()) ∧ envReady.poolPoll = Poll.ready ()) ∧
    (¬(envReady.servicePoll = Poll.ready (Except.ok ()) ∧ envReady.poolPoll = Poll.ready ()) →
      (svc0.poll_ready envReady).1 = Poll.pending) :=
  poll_ready_ok_iff_both_ready svc0 envReady (by intro e; cases e; decide)

/-- C3 counterexample: when the handler's readiness poll returns an error,
the pool's poll is never invoked on that query, refuting the claim that both
signals are polled for every combination of handler and pool outcomes. -/
theorem pool_poll_skipped_on_handler_error :
    ReadyProbe.pollPool ∉ (svc0.poll_ready envErr).2 := by decide

/-- C3 (amended): on every readiness query where the handler's poll does not
return an error, both the handler's and the pool's poll are invoked, handler
first; when the handler's poll returns an error, the early return skips the
pool's poll. -/
theorem readiness_polls_both_unless_handler_error {T E : Type} (s : StreamService T)
    (env : ReadyEnv E) :
    ((∀ e : E, env.servicePoll ≠ Poll.ready (Except.error e)) →
      (s.poll_ready env).2 = [ReadyProbe.pollService, ReadyProbe.pollPool]) ∧
    (∀ e : E, env.servicePoll = Poll.ready (Except.error e) →
      (s.poll_ready env).2 = [ReadyProbe.pollService]) := by
  rcases env with ⟨sp, pp⟩
  cases sp with
  | ready a =>
      cases a with
      | error e =>
          refine ⟨fun h => absurd rfl (h e), fun e2 h2 => ?_⟩
          simp [StreamService.poll_ready]
      | ok u =>
          refine ⟨fun _ => by simp [StreamService.poll_ready], fun e2 h2 => ?_⟩
          simp at h2
  | pending =>
      refine ⟨fun _ => by simp [StreamService.poll_ready], fun e2 h2 => ?_⟩
      simp at h2

/-- C3 (amended) witness: at a concrete both-ready environment the probe
trace contains both signals; at a concrete handler-error environment it
contains only the handler probe. -/
theorem readiness_polls_both_unless_handler_error_witness :
    (svc0.poll_ready envReady).2 = [ReadyProbe.pollService, ReadyProbe.pollPool] ∧
    (svc0.poll_ready envErr).2 = [ReadyProbe.pollService] :=
  ⟨(readiness_polls_both_unless_handler_error svc0 envReady).1
      (by intro e; cases e; decide),
   (readiness_polls_both_unless_handler_error svc0 envErr).2 () (by decide)⟩

/-- C7: when the wrapped handler's readiness poll returns an error, the
combined result is the generic error `()`, regardless of which specific
handler error occurred; the service state is unaltered, so a later query in
a both-ready environment reports ready. -/
theorem poll_ready_handler_error_generic {T E : Type} (s : StreamService T)
    (env : ReadyEnv E) (e : E) (he : env.servicePoll = Poll.ready (Except.error e)) :
    (s.poll_ready env).1 = Poll.ready (Except.error ()) ∧
    ∀ env2 : ReadyEnv E, env2.servicePoll = Poll.ready (Except.ok ()) →
      env2.poolPoll = Poll.ready () →
      (s.poll_ready env2).1 = Poll.ready (Except.ok ()) := by
  constructor
  · simp [StreamService.poll_ready, he]
  · intro env2 h1 h2
    simp [StreamService.poll_ready, h1, h2, Poll.isReady]

/-- C7 witness: the generic-error collapse and subsequent readiness at
concrete environments. -/
theorem poll_ready_handler_error_generic_witness :
    (svc0.poll_ready envErr).1 = Poll.ready (Except.error ()) ∧
    ∀ env2 : ReadyEnv Unit, env2.servicePoll = Poll.ready (Except.ok ()) →
      env2.poolPoll = Poll.ready () →
      (svc0.poll_ready env2).1 = Poll.ready (Except.ok ()) :=
  poll_ready_handler_error_generic svc0 envErr () (by decide)

/-! Claims about `StreamService::call`. -/

/-- C1: for every Connect message whose stream converts successfully, the
call dispatches the converted stream to the wrapped handler exactly once,
drops the guard exactly once and only after the dispatch has completed, and
resolves Ok(()) regardless of the handler's own outcome. -/
theorem connect_dispatch_once_guard_after {T S I E D : Type} (s : StreamService T)
    (env : CallEnv T S I E D) (g : CounterGuard) (raw : S) (io : I)
    (hconv : env.tryInto raw = Except.ok io) :
    (s.call env (some g) (ServerMessage.Connect raw)).1 = Except.ok () ∧
    ((s.call env (some g) (ServerMessage.Connect raw)).2).filter Event.isDispatch
      = [Event.dispatch io (env.run s.service io)] ∧
    ((s.call env (some g) (ServerMessage.Connect raw)).2).filter Event.isDrop
      = [Event.dropGuard g] ∧
    ∃ pre : List (Event I E D),
      (s.call env (some g) (ServerMessage.Connect raw)).2 = pre ++ [Event.dropGuard g] ∧
      Event.dispatch io (env.run s.service io) ∈ pre := by
  have htrace : (s.call env (some g) (ServerMessage.Connect raw)).2
      = [Event.setTag s.tag, Event.setMemoryPool s.pool_ref,
         Event.dispatch io (env.run s.service io), Event.dropGuard g] := by
    simp [StreamService.call, hconv, dropEvents]
  have hres : (s.call env (some g) (ServerMessage.Connect raw)).1 = Except.ok () := by
    simp [StreamService.call, hconv]
  refine ⟨hres, ?_, ?_,
    ⟨[Event.setTag s.tag, Event.setMemoryPool s.pool_ref,
      Event.dispatch io (env.run s.service io)], ?_, by simp⟩⟩
  · rw [htrace]; simp [List.filter, Event.isDispatch, Event.isDrop]
  · rw [htrace]; simp [List.filter, Event.isDispatch, Event.isDrop]
  · rw [htrace]; rfl

/-- C1 witness: a concrete Connect with a convertible stream and a present
guard yields exactly one dispatch followed by exactly one guard drop, and a
successful result. -/
theorem connect_dispatch_once_guard_after_witness :
    (svc0.call cenvOk (some ⟨5⟩) (ServerMessage.Connect 3)).1 = Except.ok () ∧
    ((svc0.call cenvOk (some ⟨5⟩) (ServerMessage.Connect 3)).2).filter Event.isDispatch
      = [Event.dispatch 3 (cenvOk.run svc0.service 3)] ∧
    ((svc0.call cenvOk (some ⟨5⟩) (ServerMessage.Connect 3)).2).filter Event.isDrop
      = [Event.dropGuard ⟨5⟩] ∧
    ∃ pre : List (Event Nat Unit Unit),
      (svc0.call cenvOk (some ⟨5⟩) (ServerMessage.Connect 3)).2
        = pre ++ [Event.dropGuard ⟨5⟩] ∧
      Event.dispatch 3 (cenvOk.run svc0.service 3) ∈ pre :=
  connect_dispatch_once_guard_after svc0 cenvOk ⟨5⟩ 3 3 rfl

/-- C4: for every Connect whose conversion fails, the call logs the error,
resolves Err(()), performs no dispatch, no tag attachment and no pool
attachment, and the service still processes later convertible streams
successfully. -/
theorem connect_conversion_failure {T S I E D : Type} (s : StreamService T)
    (env : CallEnv T S I E D) (g : Option CounterGuard) (raw : S) (e : E)
    (hconv : env.tryInto raw = Except.error e) :
    (s.call env g (ServerMessage.Connect raw)).1 = Except.error () ∧
    Event.logConvError e ∈ (s.call env g (ServerMessage.Connect raw)).2 ∧
    ((s.call env g (ServerMessage.Connect raw)).2).filter Event.isDispatch = [] ∧
    ((s.call env g (ServerMessage.Connect raw)).2).filter Event.isSetTag = [] ∧
    ((s.call env g (ServerMessage.Connect raw)).2).filter Event.isSetPool = [] ∧
    ∀ (raw2 : S) (io2 : I) (g2 : Option CounterGuard),
      env.tryInto raw2 = Except.ok io2 →
      (s.call env g2 (ServerMessage.Connect raw2)).1 = Except.ok () := by
  have hfut : ∀ (raw2 : S) (io2 : I) (g2 : Option CounterGuard),
      env.tryInto raw2 = Except.ok io2 →
      (s.call env g2 (ServerMessage.Connect raw2)).1 = Except.ok () := by
    intro raw2 io2 g2 h2
    simp [StreamService.call, h2]
  have htrace : (s.call env g (ServerMessage.Connect raw)).2
      = Event.logConvError e :: dropEvents g := by
    simp [StreamService.call, hconv]
  have hres : (s.call env g (ServerMessage.Connect raw)).1 = Except.error () := by
    simp [StreamService.call, hconv]
  refine ⟨hres, ?_, ?_, ?_, ?_, hfut⟩ <;> rw [htrace] <;> cases g <;>
    simp [dropEvents, List.filter, Event.isDispatch, Event.isSetTag, Event.isSetPool]

/-- C4 witness: a concrete failing conversion resolves Err(()), logs, and
performs no dispatch/tag/pool attachment. -/
theorem connect_conversion_failure_witness :
    (svc0.call cenvBad (some ⟨9⟩) (ServerMessage.Connect 3)).1 = Except.error () ∧
    Event.logConvError () ∈ (svc0.call cenvBad (some ⟨9⟩) (ServerMessage.Connect 3)).2 ∧
    ((svc0.call cenvBad (some ⟨9⟩) (ServerMessage.Connect 3)).2).filter Event.isDispatch = [] ∧
    ((svc0.call cenvBad (some ⟨9⟩) (ServerMessage.Connect 3)).2).filter Event.isSetTag = [] ∧
    ((svc0.call cenvBad (some ⟨9⟩) (ServerMessage.Connect 3)).2).filter Event.isSetPool = [] ∧
    ∀ (raw2 io2 : Nat) (g2 : Option CounterGuard),
      cenvBad.tryInto raw2 = Except.ok io2 →
      (svc0.call cenvBad g2 (ServerMessage.Connect raw2)).1 = Except.ok () :=
  connect_conversion_failure svc0 cenvBad (some ⟨9⟩) 3 () rfl

/-- C5 counterexample: delivering `Shutdown(5000)` together with a counter
guard resolves Ok but also drops the guard — an observable effect performed
by the adapter — so the call does not have "no other observable side
effect". -/
theorem shutdown_with_guard_has_effect :
    ¬((svc0.call cenvOk (some ⟨0⟩) (ServerMessage.Shutdown 5000)).1 = Except.ok () ∧
      (svc0.call cenvOk (some ⟨0⟩) (ServerMessage.Shutdown 5000)).2 = []) := by
  decide

/-- C5 (amended): every Shutdown or ForceShutdown message, for any deadline,
resolves Ok(()) with no handler dispatch, no tag attachment, no pool
attachment and no logging; the only effect is dropping the guard when one is
present, and with no guard there is no observable effect at all. -/
theorem shutdown_messages_noop {T S I E D : Type} (s : StreamService T)
    (env : CallEnv T S I E D) (g : Option CounterGuard) (req : ServerMessage S)
    (hreq : (∃ d : Millis, req = ServerMessage.Shutdown d) ∨
      req = ServerMessage.ForceShutdown) :
    (s.call env g req).1 = Except.ok () ∧
    (s.call env g req).2 = dropEvents g ∧
    (s.call env none req).2 = ([] : List (Event I E D)) := by
  rcases hreq with ⟨d, rfl⟩ | rfl <;> exact ⟨rfl, rfl, rfl⟩

/-- C5 (amended) witness: `Shutdown(5000)` with a guard resolves Ok and
produces exactly the guard-drop event; without a guard the trace is empty. -/
theorem shutdown_messages_noop_witness :
    (svc0.call cenvOk (some ⟨2⟩) (ServerMessage.Shutdown 5000)).1 = Except.ok () ∧
    (svc0.call cenvOk (some ⟨2⟩) (ServerMessage.Shutdown 5000)).2 = dropEvents (some ⟨2⟩) ∧
    (svc0.call cenvOk none (ServerMessage.Shutdown 5000)).2
      = ([] : List (Event Nat Unit Unit)) :=
  shutdown_messages_noop svc0 cenvOk (some ⟨2⟩) (ServerMessage.Shutdown 5000)
    (Or.inl ⟨5000, rfl⟩)

/-- C10: on every message path — Connect with succeeding or failing
conversion, Shutdown, ForceShutdown — a present guard is dropped exactly
once by the time the call resolves, and an absent guard yields no drop. -/
theorem guard_dropped_exactly_once_every_path {T S I E D : Type}
    (s : StreamService T) (env : CallEnv T S I E D) (g : CounterGuard)
    (req : ServerMessage S) :
    ((s.call env (some g) req).2).filter Event.isDrop = [Event.dropGuard g] ∧
    ((s.call env none req).2).filter Event.isDrop = ([] : List (Event I E D)) := by
  cases req with
  | Connect stream =>
      cases h : env.tryInto stream <;>
        simp [StreamService.call, h, dropEvents, List.filter, Event.isDrop]
  | Shutdown d =>
      simp [StreamService.call, dropEvents, List.filter, Event.isDrop]
  | ForceShutdown =>
      simp [StreamService.call, dropEvents, List.filter, Event.isDrop]

/-! Claims about `Factory`. -/

/-- C6: Factory::create yields, when the user build succeeds, Ok with
exactly one (token, boxed service) pair bound to the factory's own token;
when the user build fails, it yields Err(()) and no partial list. -/
theorem factory_create_single_pair_or_failure {F UF T B : Type} (f : Factory F)
    (screate : F → Config → UF) (fcreate : UF → Except B T) :
    (∀ inner : T, fcreate (screate f.inner Config.default) = Except.ok inner →
      Factory.create screate fcreate f = Except.ok
        [(f.token, boxed_service (StreamService.new inner f.tag
          Config.default.get_pool_id))]) ∧
    (∀ b : B, fcreate (screate f.inner Config.default) = Except.error b →
      Factory.create screate fcreate f = Except.error ()) := by
  constructor
  · intro inner h
    simp [Factory.create, h]
  · intro b h
    simp [Factory.create, h]

/-- C6 witness: a concrete succeeding build yields the singleton pair for the
factory's token, and a concrete failing build yields Err(()). -/
theorem factory_create_single_pair_or_failure_witness :
    Factory.create screate0 fcreate0 f0 = Except.ok
      [(f0.token, boxed_service (StreamService.new () f0.tag
        Config.default.get_pool_id))] ∧
    Factory.create screate0 fcreateBad f0 = Except.error () :=
  ⟨(factory_create_single_pair_or_failure f0 screate0 fcreate0).1 () rfl,
   (factory_create_single_pair_or_failure f0 screate0 fcreateBad).2 () rfl⟩

/-- C8: cloning a factory and then setting a tag on the clone gives the clone
the new tag while leaving the original's tag unchanged; services built by the
original's create still carry the original's tag. -/
theorem clone_set_tag_does_not_affect_original {F UF T B : Type} (f : Factory F)
    (tok : Token) (tg : Tag) (screate : F → Config → UF)
    (fcreate : UF → Except B T) (inner : T)
    (hok : fcreate (screate f.inner Config.default) = Except.ok inner) :
    ((f.clone_factory).set_tag tok tg).tag = tg ∧
    (f.clone_factory).tag = f.tag ∧
    Factory.create screate fcreate f = Except.ok
      [(f.token, boxed_service (StreamService.new inner f.tag
        Config.default.get_pool_id))] ∧
    (StreamService.new inner f.tag Config.default.get_pool_id).tag = f.tag := by
  refine ⟨rfl, rfl, ?_, rfl⟩
  simp [Factory.create, hok]

/-- C8 witness: at a concrete factory, tagging the clone yields the new tag
on the clone while the original's create builds a service with the original
tag. -/
theorem clone_set_tag_does_not_affect_original_witness :
    ((f0.clone_factory).set_tag ⟨1⟩ "newtag").tag = "newtag" ∧
    (f0.clone_factory).tag = f0.tag ∧
    Factory.create screate0 fcreate0 f0 = Except.ok
      [(f0.token, boxed_service (StreamService.new () f0.tag
        Config.default.get_pool_id))] ∧
    (StreamService.new () f0.tag Config.default.get_pool_id).tag = f0.tag :=
  clone_set_tag_does_not_affect_original f0 ⟨1⟩ "newtag" screate0 fcreate0 () rfl

/-- C9: the service built by Factory::create derives both its pool handle and
its pool reference from the single pool identity of one freshly built default
configuration, the two agree on that identity, and every pool attachment the
service ever performs during a call carries that same construction-time
reference. -/
theorem pool_identity_fixed_at_construction {F UF T B S I E D : Type}
    (f : Factory F) (screate : F → Config → UF) (fcreate : UF → Except B T)
    (inner : T) (hok : fcreate (screate f.inner Config.default) = Except.ok inner)
    (env : CallEnv T S I E D) (g : Option CounterGuard) (req : ServerMessage S)
    (p : PoolRef)
    (hp : Event.setMemoryPool p ∈
      ((StreamService.new inner f.tag Config.default.get_pool_id).call env g req).2) :
    Factory.create screate fcreate f = Except.ok
      [(f.token, boxed_service (StreamService.new inner f.tag
        Config.default.get_pool_id))] ∧
    (StreamService.new inner f.tag Config.default.get_pool_id).pool
      = Config.default.get_pool_id.pool ∧
    (StreamService.new inner f.tag Config.default.get_pool_id).pool_ref
      = Config.default.get_pool_id.pool_ref ∧
    (StreamService.new inner f.tag Config.default.get_pool_id).pool.id
      = (StreamService.new inner f.tag Config.default.get_pool_id).pool_ref.id ∧
    p = Config.default.get_pool_id.pool_ref := by
  refine ⟨by simp [Factory.create, hok], rfl, rfl, rfl, ?_⟩
  cases req with
  | Connect stream =>
      cases h : env.tryInto stream with
      | ok io =>
          cases g <;>
            simp [StreamService.call, h, dropEvents, StreamService.new] at hp <;>
            simpa using hp
      | error e =>
          cases g <;> simp [StreamService.call, h, dropEvents] at hp
  | Shutdown d =>
      cases g <;> simp [StreamService.call, dropEvents] at hp
  | ForceShutdown =>
      cases g <;> simp [StreamService.call, dropEvents] at hp

/-- C9 witness: at a concrete factory, environment and Connect message, the
built service's pool entities all carry the default configuration's pool
identity, and the attached reference equals it. -/
theorem pool_identity_fixed_at_construction_witness :
    Factory.create screate0 fcreate0 f0 = Except.ok
      [(f0.token, boxed_service (StreamService.new () f0.tag
        Config.default.get_pool_id))] ∧
    (StreamService.new () f0.tag Config.default.get_pool_id).pool
      = Config.default.get_pool_id.pool ∧
    (StreamService.new () f0.tag Config.default.get_pool_id).pool_ref
      = Config.default.get_pool_id.pool_ref ∧
    (StreamService.new () f0.tag Config.default.get_pool_id).pool.id
      = (StreamService.new () f0.tag Config.default.get_pool_id).pool_ref.id ∧
    Config.default.get_pool_id.pool_ref = Config.default.get_pool_id.pool_ref :=
  pool_identity_fixed_at_construction f0 screate0 fcreate0 () rfl cenvOk
    (some ⟨1⟩) (ServerMessage.Connect 4) Config.default.get_pool_id.pool_ref
    (by decide)
